import Mathlib

/-!
Shallow embedding of `eth-registrar-ens` (src/src/index.js).

The library is a client for the ENS auction registrar.  External
collaborators (web3 sha3 hashing, the `ethereum-ens` normalise function,
and the registrar/deed contracts) are modelled as oracle parameters:
total functions for calls that cannot fail in the source's view, and
`Except String`-valued functions for calls the source documents as able
to throw.  Times follow the JavaScript source: `registrationDate` is a
unix timestamp in seconds, `new Date(registrationDate * 1000)` converts
to milliseconds, and `now` (the value of `new Date()`) is milliseconds.
-/

namespace Registrar

/-- The zero address sentinel used by the source for "no deed" and
"sealed bid deleted" checks. -/
def zeroAddress : String := "0x0000000000000000000000000000000000000000"

/-- Error message of `Registrar.TooShort` (index.js line 107). -/
def tooShortMsg : String := "Name is too short"

/-- Error message of `Registrar.NoDeposit` (index.js line 326). -/
def noDepositMsg : String :=
  "You must specify a deposit amount greater than the value of your bid"

/-- `Registrar.prototype.checkLength` (index.js lines 109-113): throws
`Registrar.TooShort` when `name.length < this.minLength`. -/
def checkLength (minLength : Nat) (name : String) : Except String Unit :=
  if name.length < minLength then .error tooShortMsg else .ok ()

/-- The `status === 1` time classification of the `Entry` constructor
(index.js lines 158-174): `registration = new Date(this.registrationDate
* 1000)` and `now = new Date()`, both in milliseconds, compared with a
`24 * hours` window where `hours = 60 * 60 * 1000`. -/
def biddingMode (registration now : Int) : String :=
  let hours : Int := 60 * 60 * 1000
  if registration - now > 24 * hours then "auction"
  else if now < registration ∧ registration - now < 24 * hours then "reveal"
  else if now > registration ∧ now - registration < 24 * hours then "finalize"
  else "finalize-open"

/-- The mode computation of the `Entry` constructor (index.js lines
139-180).  `nameLen` is `name.length`; `status` is the entry status
code; `registrationDate` is in seconds; `now` is in milliseconds
(`new Date()`).  The source hardcodes `7` as the short-name threshold
(line 144). -/
def entryMode (nameLen : Nat) (status : Nat) (registrationDate : Int)
    (now : Int) : String :=
  if nameLen < 7 then
    if status = 0 then "invalid" else "can-invalidate"
  else
    if status = 0 then "open"
    else if status = 1 then biddingMode (registrationDate * 1000) now
    else if status = 2 then "owned"
    else ""

/-- The `Deed` value object (index.js lines 187-192).  Fields are
`Option`-valued because `getEntry` constructs a sentinel deed with
`null` fields. -/
structure Deed where
  address : Option String
  balance : Option Int
  creationDate : Option Int
  owner : Option String
  deriving Repr, DecidableEq

/-- `Registrar.prototype.getDeed` (index.js lines 204-208): reads the
deed contract at `address` and wraps balance, creation date and owner.
The three contract reads are oracle parameters. -/
def getDeed (getBalance : String → Int) (creationDateOf : String → Int)
    (ownerOf : String → String) (address : String) : Deed :=
  { address := some address
    balance := some (getBalance address)
    creationDate := some (creationDateOf address)
    owner := some (ownerOf address) }

/-- The deed construction inside `getEntry` (index.js lines 249-257):
when the entry's deed address `e[1]` is not the zero address the deed is
resolved with `getDeed`; otherwise "a deed object with all props null
except for the 0 address" is constructed. -/
def entryDeed (getBalance : String → Int) (creationDateOf : String → Int)
    (ownerOf : String → String) (deedAddr : String) : Deed :=
  if deedAddr ≠ zeroAddress then
    getDeed getBalance creationDateOf ownerOf deedAddr
  else
    { address := some deedAddr, balance := none, creationDate := none, owner := none }

/-- The bid object built by `bidFactory` (index.js lines 355-365). -/
structure Bid where
  name : String
  hash : String
  value : Int
  owner : String
  secret : String
  hexSecret : String
  shaBid : String
  deriving Repr, DecidableEq

/-- A web3 transaction parameter object as used by `submitBid`: only the
`value` field matters to the source logic, and it may be absent
(`undefined`), as in the default `params = {}`. -/
structure TxParams where
  value : Option Int
  deriving Repr, DecidableEq

/-- JavaScript `params.value < bid.value` where `params.value` may be
`undefined`: a relational comparison with `undefined` coerces to `NaN`
and evaluates to `false`. -/
def jsLtOpt : Option Int → Int → Bool
  | none, _ => false
  | some a, b => a < b

/-- Outcome of an operation invoked with a callback.  `threw e` means an
exception escaped the call (no try/catch on that path); `cbErr e` means
the callback was invoked with `e` in the error slot; `cbOk a` means the
callback was invoked as `(null, a)`; `dispatched` means the request was
handed to the ledger contract with the callback attached. -/
inductive CbOutcome (α : Type) where
  | threw (e : String)
  | cbErr (e : String)
  | cbOk (a : α)
  | dispatched
  deriving Repr, DecidableEq

/-- Result of `submitBid`: the list of `contract.newBid` write calls
issued (sealed-bid hash and transaction params of each) together with
the synchronous outcome. -/
structure SubmitResult where
  writes : List (String × TxParams)
  result : Except String String
  deriving Repr

/-- `Registrar.prototype.submitBid`, synchronous path (index.js lines
394-399): throws `Registrar.NoDeposit` when `params.value < bid.value`,
otherwise issues `contract.newBid(bid.shaBid, params)`.  `newBidTx` is
the ledger write oracle returning a transaction id. -/
def submitBid (newBidTx : String → TxParams → String) (bid : Bid)
    (params : TxParams) : SubmitResult :=
  if jsLtOpt params.value bid.value then
    { writes := [], result := .error noDepositMsg }
  else
    { writes := [(bid.shaBid, params)], result := .ok (newBidTx bid.shaBid params) }

/-- `Registrar.prototype.submitBid`, callback path (index.js lines
388-393): calls back with `Registrar.NoDeposit` in the error slot when
`params.value < bid.value`, otherwise dispatches
`contract.newBid(bid.shaBid, params, callback)`. -/
def submitBidAsync (bid : Bid) (params : TxParams) :
    List (String × TxParams) × CbOutcome String :=
  if jsLtOpt params.value bid.value then
    ([], .cbErr noDepositMsg)
  else
    ([(bid.shaBid, params)], .dispatched)

/-- The identifier batch built by `openAuction` (index.js lines
294-300, 308-309, 320-321): ten hashes `sha3(Math.random().toString())`
— the ten random draws are the oracle `randoms` — with the entry at the
randomly selected index `j = Math.floor(Math.random() * 10)` replaced by
the target hash. -/
def openAuctionHashes (sha3 : String → String) (randoms : Fin 10 → String)
    (j : Fin 10) (hash : String) : List String :=
  ((List.finRange 10).map (fun i => sha3 (randoms i))).set j hash

/-- Result of `openAuction`: the `contract.startAuctions` write calls
issued (each a batch of identifiers) and the synchronous outcome. -/
structure OpenAuctionResult where
  startAuctionsCalls : List (List String)
  result : Except String String
  deriving Repr

/-- `Registrar.prototype.openAuction`, synchronous path (index.js lines
315-323): `normalise(name)` first (it throws on an invalid character),
then `checkLength(name)`, then `startAuctions` on the batch with the
target hash inserted.  `normalise` is the external normalisation oracle,
`startAuctionsTx` the ledger write oracle. -/
def openAuction (minLength : Nat) (sha3 : String → String)
    (normalise : String → Except String String)
    (startAuctionsTx : List String → String)
    (randoms : Fin 10 → String) (j : Fin 10) (name : String) :
    OpenAuctionResult :=
  match normalise name with
  | .error e => { startAuctionsCalls := [], result := .error e }
  | .ok normalisedName =>
    match checkLength minLength name with
    | .error e => { startAuctionsCalls := [], result := .error e }
    | .ok _ =>
      let batch := openAuctionHashes sha3 randoms j (sha3 normalisedName)
      { startAuctionsCalls := [batch], result := .ok (startAuctionsTx batch) }

/-- `Registrar.prototype.openAuction`, callback path (index.js lines
302-314): the whole body is inside `try { ... } catch (e) { callback(e,
null) }`, so a `normalise` or `checkLength` failure reaches the callback
in the error slot, and on success the batch is dispatched with the
callback attached. -/
def openAuctionAsync (minLength : Nat) (sha3 : String → String)
    (normalise : String → Except String String)
    (randoms : Fin 10 → String) (j : Fin 10) (name : String) :
    List (List String) × CbOutcome String :=
  match normalise name with
  | .error e => ([], .cbErr e)
  | .ok normalisedName =>
    match checkLength minLength name with
    | .error e => ([], .cbErr e)
    | .ok _ =>
      let batch := openAuctionHashes sha3 randoms j (sha3 normalisedName)
      ([batch], .dispatched)

/-- Result of `bidFactory`: the `contract.shaBid` read-only ledger calls
issued (hash, owner, value, hexSecret) and the outcome. -/
structure BidFactoryResult where
  shaBidCalls : List (String × String × Int × String)
  result : Except String Bid
  deriving Repr

/-- `Registrar.prototype.bidFactory` (index.js lines 351-367):
`checkLength(name)` first (throws `TooShort`), then `normalise(name)`
(throws on an invalid character), then the bid object is assembled, with
`shaBid` obtained from the read-only contract call
`contract.shaBid(sha3(normalisedName), owner, value, sha3(secret))`
modelled by the oracle `shaBidOf`. -/
def bidFactory (minLength : Nat) (sha3 : String → String)
    (normalise : String → Except String String)
    (shaBidOf : String → String → Int → String → String)
    (name : String) (owner : String) (value : Int) (secret : String) :
    BidFactoryResult :=
  match checkLength minLength name with
  | .error e => { shaBidCalls := [], result := .error e }
  | .ok _ =>
    match normalise name with
    | .error e => { shaBidCalls := [], result := .error e }
    | .ok normalisedName =>
      { shaBidCalls := [(sha3 normalisedName, owner, value, sha3 secret)]
        result := .ok
          { name := normalisedName
            hash := sha3 normalisedName
            value := value
            owner := owner
            secret := secret
            hexSecret := sha3 secret
            shaBid := shaBidOf (sha3 normalisedName) owner value (sha3 secret) } }

/-- The raw record returned by `contract.entries(hash)` (index.js lines
248, 262-266): `e[0]` status, `e[1]` deed address, `e[2]` registration
date (seconds), `e[3]` value, `e[4]` highest bid. -/
structure EntryData where
  status : Nat
  deedAddr : String
  registrationDate : Int
  value : Int
  highestBid : Int
  deriving Repr, DecidableEq

/-- The `Entry` value object (index.js lines 129-181): the stored fields
plus the derived `mode`. -/
structure EntryObj where
  name : String
  hash : String
  status : Nat
  deed : Deed
  registrationDate : Int
  value : Int
  highestBid : Int
  mode : String
  deriving Repr, DecidableEq

/-- The `Entry` construction inside `getEntry` (index.js lines 251-267):
resolve the deed from `e[1]`, then build the entry with the mode
computed by the `Entry` constructor at wall-clock time `now`. -/
def mkEntry (getBalance : String → Int) (creationDateOf : String → Int)
    (ownerOf : String → String) (now : Int) (name : String) (hash : String)
    (e : EntryData) : EntryObj :=
  { name := name
    hash := hash
    status := e.status
    deed := entryDeed getBalance creationDateOf ownerOf e.deedAddr
    registrationDate := e.registrationDate
    value := e.value
    highestBid := e.highestBid
    mode := entryMode name.length e.status e.registrationDate now }

/-- Result of `getEntry`: the `normalise` calls, the local `sha3`
hashing calls, the `contract.entries` read calls, and the outcome. -/
structure GetEntryResult where
  normaliseCalls : List String
  sha3Calls : List String
  entriesCalls : List String
  result : Except String EntryObj
  deriving Repr

/-- `Registrar.prototype.getEntry`, synchronous core (index.js lines
237-273): an input whose first two characters are not `0x` is normalised
and hashed; otherwise the input is used directly as both name and hash.
`contract.entries` is a ledger read that can fail (`entries` oracle);
a failure of `normalise` or `entries` propagates as a thrown error. -/
def getEntry (sha3 : String → String)
    (normalise : String → Except String String)
    (entries : String → Except String EntryData)
    (getBalance : String → Int) (creationDateOf : String → Int)
    (ownerOf : String → String) (now : Int) (input : String) :
    GetEntryResult :=
  if input.take 2 ≠ "0x" then
    match normalise input with
    | .error e =>
      { normaliseCalls := [input], sha3Calls := [], entriesCalls := []
        result := .error e }
    | .ok name =>
      let hash := sha3 name
      match entries hash with
      | .error e =>
        { normaliseCalls := [input], sha3Calls := [name], entriesCalls := [hash]
          result := .error e }
      | .ok e =>
        { normaliseCalls := [input], sha3Calls := [name], entriesCalls := [hash]
          result := .ok (mkEntry getBalance creationDateOf ownerOf now name hash e) }
  else
    match entries input with
    | .error e =>
      { normaliseCalls := [], sha3Calls := [], entriesCalls := [input]
        result := .error e }
    | .ok e =>
      { normaliseCalls := [], sha3Calls := [], entriesCalls := [input]
        result := .ok (mkEntry getBalance creationDateOf ownerOf now input input e) }

/-- `Registrar.prototype.getEntry` invoked with a callback (index.js
lines 237-274): the body has no try/catch, so `normalise` and
`contract.entries` run synchronously and their failures are thrown past
the callback; only on success is the callback invoked as
`callback(null, entry)` (line 270). -/
def getEntryAsync (sha3 : String → String)
    (normalise : String → Except String String)
    (entries : String → Except String EntryData)
    (getBalance : String → Int) (creationDateOf : String → Int)
    (ownerOf : String → String) (now : Int) (input : String) :
    GetEntryResult × CbOutcome EntryObj :=
  let r := getEntry sha3 normalise entries getBalance creationDateOf ownerOf now input
  (r, match r.result with
      | .error e => .threw e
      | .ok entry => .cbOk entry)

/-- `Registrar.prototype.isBidRevealed`, synchronous path (index.js
lines 458-461): reads `contract.sealedBids.call(bid.shaBid)` and
compares the stored record with the zero address. -/
def isBidRevealed (sealedBids : String → String) (bid : Bid) : Bool :=
  sealedBids bid.shaBid == zeroAddress

/-- `Registrar.prototype.isBidRevealed`, callback path (index.js lines
450-457): a ledger read failure is forwarded to the callback's error
slot; otherwise the callback receives the comparison of the record with
the zero address. -/
def isBidRevealedAsync (sealedBidsE : String → Except String String)
    (bid : Bid) : CbOutcome Bool :=
  match sealedBidsE bid.shaBid with
  | .error e => .cbErr e
  | .ok result => .cbOk (result == zeroAddress)

/-! Sample concrete values used by witnesses. -/

/-- A sample bid object. -/
def sampleBid : Bid :=
  { name := "foobarbaz", hash := "0xhash", value := 5, owner := "0xowner"
    secret := "secret", hexSecret := "0xsecret", shaBid := "0xshabid" }

/-- A sample entry record as returned by `contract.entries`. -/
def sampleEntryData : EntryData :=
  { status := 1, deedAddr := zeroAddress, registrationDate := 2000, value := 7, highestBid := 9 }

/-- A sample stream of random decoy draws. -/
def sampleRandoms : Fin 10 → String := fun i => "r" ++ toString i.val

/-- A second, disjoint sample stream of random decoy draws, standing
for the draws of a repeated call. -/
def sampleRandoms2 : Fin 10 → String := fun i => "s" ++ toString i.val

/-- A sample instance of the external normalisation collaborator that
rejects the name `"a!"` (the exclamation mark is a disallowed
character), as the imported `normalise` throws on invalid characters. -/
def strictNormalise : String → Except String String :=
  fun s => if s = "a!" then .error "Illegal char" else .ok s

end Registrar

namespace Registrar

/-- C3: when the transaction parameters carry a deposit value below the
bid's value, `submitBid` fails with the `NoDeposit` (InsufficientDeposit)
error — thrown in synchronous mode, delivered in the callback's error
slot in asynchronous mode — and in both modes no `newBid` ledger write
is issued: the check runs client-side before any ledger call. -/
theorem submitBid_insufficient_deposit (newBidTx : String → TxParams → String)
    (bid : Bid) (params : TxParams) (v : Int)
    (hv : params.value = some v) (hlt : v < bid.value) :
    (submitBid newBidTx bid params).writes = []
    ∧ (submitBid newBidTx bid params).result = .error noDepositMsg
    ∧ (submitBidAsync bid params).1 = []
    ∧ (submitBidAsync bid params).2 = .cbErr noDepositMsg := by
  have h : jsLtOpt params.value bid.value = true := by
    simp [jsLtOpt, hv, hlt]
  simp [submitBid, submitBidAsync, h]

/-- Witness for `submitBid_insufficient_deposit` at a concrete bid of
value 5 and a deposit of 3. -/
theorem submitBid_insufficient_deposit_witness :
    ({ value := some 3 } : TxParams).value = some 3 ∧ (3 : Int) < sampleBid.value
    ∧ ((submitBid (fun _ _ => "0xtx") sampleBid { value := some 3 }).writes = []
       ∧ (submitBid (fun _ _ => "0xtx") sampleBid { value := some 3 }).result = .error noDepositMsg
       ∧ (submitBidAsync sampleBid { value := some 3 }).1 = []
       ∧ (submitBidAsync sampleBid { value := some 3 }).2 = .cbErr noDepositMsg) :=
  ⟨rfl, by decide,
   submitBid_insufficient_deposit (fun _ _ => "0xtx") sampleBid { value := some 3 } 3 rfl (by decide)⟩

/-- C9: when the transaction parameter object omits the `value` field
(the default `params = {}` leaves it `undefined`), the JavaScript
comparison `params.value < bid.value` is false, so the insufficient-
deposit check passes and the sealed-bid `newBid` write is issued with
the valueless parameter object, in both calling modes. -/
theorem submitBid_undefined_value (newBidTx : String → TxParams → String) (bid : Bid) :
    (submitBid newBidTx bid { value := none }).writes = [(bid.shaBid, { value := none })]
    ∧ (submitBid newBidTx bid { value := none }).result
        = .ok (newBidTx bid.shaBid { value := none })
    ∧ (submitBidAsync bid { value := none }).1 = [(bid.shaBid, { value := none })]
    ∧ (submitBidAsync bid { value := none }).2 = .dispatched := by
  simp [submitBid, submitBidAsync, jsLtOpt]

/-- C8: `isBidRevealed` returns `true` exactly when the ledger's
sealed-bid record for the bid's commitment is the zero-address sentinel
and `false` otherwise; the callback path reports the same comparison for
a non-failing ledger read. -/
theorem isBidRevealed_zero_sentinel (sealedBids : String → String) (bid : Bid) :
    (isBidRevealed sealedBids bid = true ↔ sealedBids bid.shaBid = zeroAddress)
    ∧ (isBidRevealed sealedBids bid = false ↔ sealedBids bid.shaBid ≠ zeroAddress)
    ∧ isBidRevealedAsync (fun s => .ok (sealedBids s)) bid
        = .cbOk (sealedBids bid.shaBid == zeroAddress) := by
  refine ⟨?_, ?_, rfl⟩ <;> simp [isBidRevealed]

/-- C10: an input starting with the two characters `0x` is treated by
`getEntry` as an already-computed identifier: no normalisation call and
no hashing call is made, the single ledger `entries` read is keyed by
the raw input, and the resulting entry (when the read succeeds) carries
the input string as both its `name` and its `hash`. -/
theorem getEntry_hex_input (sha3 : String → String)
    (normalise : String → Except String String)
    (entries : String → Except String EntryData)
    (getBalance : String → Int) (creationDateOf : String → Int)
    (ownerOf : String → String) (now : Int) (input : String)
    (h : input.take 2 = "0x") :
    (getEntry sha3 normalise entries getBalance creationDateOf ownerOf now input).normaliseCalls = []
    ∧ (getEntry sha3 normalise entries getBalance creationDateOf ownerOf now input).sha3Calls = []
    ∧ (getEntry sha3 normalise entries getBalance creationDateOf ownerOf now input).entriesCalls = [input]
    ∧ (getEntry sha3 normalise entries getBalance creationDateOf ownerOf now input).result
        = (entries input).map (mkEntry getBalance creationDateOf ownerOf now input input) := by
  unfold getEntry
  rw [if_neg (by simp [h])]
  cases entries input <;> simp [Except.map]

/-- Witness for `getEntry_hex_input` at the concrete input `"0xabc123"`
against a ledger holding `sampleEntryData` everywhere. -/
theorem getEntry_hex_input_witness :
    ("0xabc123").take 2 = "0x"
    ∧ ((getEntry (fun s => "0x" ++ s) (fun s => .ok s) (fun _ => .ok sampleEntryData)
          (fun _ => 0) (fun _ => 0) (fun _ => "0xo") 0 "0xabc123").normaliseCalls = []
       ∧ (getEntry (fun s => "0x" ++ s) (fun s => .ok s) (fun _ => .ok sampleEntryData)
          (fun _ => 0) (fun _ => 0) (fun _ => "0xo") 0 "0xabc123").sha3Calls = []
       ∧ (getEntry (fun s => "0x" ++ s) (fun s => .ok s) (fun _ => .ok sampleEntryData)
          (fun _ => 0) (fun _ => 0) (fun _ => "0xo") 0 "0xabc123").entriesCalls = ["0xabc123"]
       ∧ (getEntry (fun s => "0x" ++ s) (fun s => .ok s) (fun _ => .ok sampleEntryData)
          (fun _ => 0) (fun _ => 0) (fun _ => "0xo") 0 "0xabc123").result
          = ((fun (_ : String) => Except.ok (ε := String) sampleEntryData) "0xabc123").map
              (mkEntry (fun _ => 0) (fun _ => 0) (fun _ => "0xo") 0 "0xabc123" "0xabc123")) :=
  ⟨rfl, getEntry_hex_input (fun s => "0x" ++ s) (fun s => .ok s) (fun _ => .ok sampleEntryData)
    (fun _ => 0) (fun _ => 0) (fun _ => "0xo") 0 "0xabc123" rfl⟩

/-- C6 counterexample: when the entry's deed address is the zero
address, `getEntry` constructs the sentinel deed with the zero address
in the `address` field and `null` in the other three, so the four fields
are neither all null together nor all non-null. -/
theorem deed_sentinel_breaks_all_null :
    ¬ (((entryDeed (fun _ => 0) (fun _ => 0) (fun _ => "0xo") zeroAddress).address = none
        ∧ (entryDeed (fun _ => 0) (fun _ => 0) (fun _ => "0xo") zeroAddress).balance = none
        ∧ (entryDeed (fun _ => 0) (fun _ => 0) (fun _ => "0xo") zeroAddress).creationDate = none
        ∧ (entryDeed (fun _ => 0) (fun _ => 0) (fun _ => "0xo") zeroAddress).owner = none)
       ∨ ((entryDeed (fun _ => 0) (fun _ => 0) (fun _ => "0xo") zeroAddress).address ≠ none
        ∧ (entryDeed (fun _ => 0) (fun _ => 0) (fun _ => "0xo") zeroAddress).balance ≠ none
        ∧ (entryDeed (fun _ => 0) (fun _ => 0) (fun _ => "0xo") zeroAddress).creationDate ≠ none
        ∧ (entryDeed (fun _ => 0) (fun _ => 0) (fun _ => "0xo") zeroAddress).owner ≠ none)) := by
  decide

/-- C6 amended: every deed produced for an entry either has all four
fields non-null (a resolved deed), or is the no-deed sentinel whose
`address` field holds the zero address while `balance`, `creationDate`
and `owner` are null together. -/
theorem deed_fields_invariant (getBalance : String → Int)
    (creationDateOf : String → Int) (ownerOf : String → String)
    (deedAddr : String) :
    ((entryDeed getBalance creationDateOf ownerOf deedAddr).address.isSome
     ∧ (entryDeed getBalance creationDateOf ownerOf deedAddr).balance.isSome
     ∧ (entryDeed getBalance creationDateOf ownerOf deedAddr).creationDate.isSome
     ∧ (entryDeed getBalance creationDateOf ownerOf deedAddr).owner.isSome)
    ∨ ((entryDeed getBalance creationDateOf ownerOf deedAddr).address = some zeroAddress
     ∧ (entryDeed getBalance creationDateOf ownerOf deedAddr).balance = none
     ∧ (entryDeed getBalance creationDateOf ownerOf deedAddr).creationDate = none
     ∧ (entryDeed getBalance creationDateOf ownerOf deedAddr).owner = none) := by
  unfold entryDeed getDeed
  by_cases h : deedAddr = zeroAddress
  · right
    simp [h]
  · left
    simp [h]

/-- Characterization of the four bidding-phase windows implemented by
`biddingMode`: exactly one of the four tags is produced, and all exact
boundary instants (`now = registration`, and differences of exactly 24
hours on either side) fall into the `finalize-open` branch. -/
theorem biddingMode_windows (registration now : Int) :
    (biddingMode registration now = "auction"
      ∨ biddingMode registration now = "reveal"
      ∨ biddingMode registration now = "finalize"
      ∨ biddingMode registration now = "finalize-open")
    ∧ (biddingMode registration now = "auction" ↔ registration - now > 86400000)
    ∧ (biddingMode registration now = "reveal"
        ↔ 0 < registration - now ∧ registration - now < 86400000)
    ∧ (biddingMode registration now = "finalize"
        ↔ 0 < now - registration ∧ now - registration < 86400000)
    ∧ (biddingMode registration now = "finalize-open"
        ↔ ¬ registration - now > 86400000
          ∧ ¬(0 < registration - now ∧ registration - now < 86400000)
          ∧ ¬(0 < now - registration ∧ now - registration < 86400000)) := by
  simp only [biddingMode]
  split_ifs with h1 h2 h3 <;>
    refine ⟨by decide, ?_, ?_, ?_, ?_⟩ <;>
    constructor <;> intro hx <;>
    first
      | rfl
      | (exact absurd hx (by decide))
      | omega

/-- C1 counterexample: a `now` exactly equal to the registration
deadline (here `registrationDate = 1000` seconds, `now = 1000000`
milliseconds) is classified `finalize-open` by the code, not `finalize`
as the claim's equality rule states. -/
theorem entryMode_at_exact_deadline :
    entryMode 9 1 1000 1000000 = "finalize-open"
    ∧ entryMode 9 1 1000 1000000 ≠ "finalize" := by
  decide

/-- C1 amended: for every entry with `status = Bidding` and a name of at
least the minimum length, the phase function produces exactly one of
auction, reveal, finalize and finalize-open, and the windows partition
all `(now, registrationDeadline)` pairs with no gap and no overlap; the
assignment is: deadline − now > 24h yields auction, 0 < deadline − now
< 24h (strictly) yields reveal, 0 < now − deadline < 24h (strictly)
yields finalize, and every remaining pair — including `now` exactly
equal to the deadline and differences of exactly 24h on either side —
yields finalize-open. -/
theorem entryMode_bidding_partition (nameLen status : Nat)
    (registrationDate now : Int) (hlen : ¬ nameLen < 7) (hst : status = 1) :
    (entryMode nameLen status registrationDate now = "auction"
      ∨ entryMode nameLen status registrationDate now = "reveal"
      ∨ entryMode nameLen status registrationDate now = "finalize"
      ∨ entryMode nameLen status registrationDate now = "finalize-open")
    ∧ (entryMode nameLen status registrationDate now = "auction"
        ↔ registrationDate * 1000 - now > 86400000)
    ∧ (entryMode nameLen status registrationDate now = "reveal"
        ↔ 0 < registrationDate * 1000 - now ∧ registrationDate * 1000 - now < 86400000)
    ∧ (entryMode nameLen status registrationDate now = "finalize"
        ↔ 0 < now - registrationDate * 1000 ∧ now - registrationDate * 1000 < 86400000)
    ∧ (entryMode nameLen status registrationDate now = "finalize-open"
        ↔ ¬ registrationDate * 1000 - now > 86400000
          ∧ ¬(0 < registrationDate * 1000 - now ∧ registrationDate * 1000 - now < 86400000)
          ∧ ¬(0 < now - registrationDate * 1000 ∧ now - registrationDate * 1000 < 86400000)) := by
  subst hst
  unfold entryMode
  rw [if_neg hlen, if_neg (by decide : ¬ (1 : Nat) = 0), if_pos rfl]
  exact biddingMode_windows (registrationDate * 1000) now

/-- Witness for `entryMode_bidding_partition` at a seven-character name
in `status = 1` with `registrationDate = 100` seconds and `now = 0`:
the deadline is 100000 ms away, inside the reveal window. -/
theorem entryMode_bidding_partition_witness :
    (¬ (7 : Nat) < 7) ∧ ((1 : Nat) = 1)
    ∧ ((entryMode 7 1 100 0 = "auction"
         ∨ entryMode 7 1 100 0 = "reveal"
         ∨ entryMode 7 1 100 0 = "finalize"
         ∨ entryMode 7 1 100 0 = "finalize-open")
       ∧ (entryMode 7 1 100 0 = "auction" ↔ (100 : Int) * 1000 - 0 > 86400000)
       ∧ (entryMode 7 1 100 0 = "reveal"
           ↔ 0 < (100 : Int) * 1000 - 0 ∧ (100 : Int) * 1000 - 0 < 86400000)
       ∧ (entryMode 7 1 100 0 = "finalize"
           ↔ 0 < (0 : Int) - 100 * 1000 ∧ (0 : Int) - 100 * 1000 < 86400000)
       ∧ (entryMode 7 1 100 0 = "finalize-open"
           ↔ ¬ (100 : Int) * 1000 - 0 > 86400000
             ∧ ¬(0 < (100 : Int) * 1000 - 0 ∧ (100 : Int) * 1000 - 0 < 86400000)
             ∧ ¬(0 < (0 : Int) - 100 * 1000 ∧ (0 : Int) - 100 * 1000 < 86400000))) :=
  ⟨by decide, rfl, entryMode_bidding_partition 7 1 100 0 (by decide) rfl⟩

/-- C5: the `Entry` constructor's short-name rule compares against the
hardcoded literal `7` (index.js line 144, with a TODO acknowledging it
should match the Registrar's configured `minLength`), not against the
configured minimum: a five-character name is classified `invalid` /
`can-invalidate` regardless of any configured threshold — the embedded
`entryMode` does not even receive the configured `minLength`, so a
registrar constructed with `minLength = 4` still treats `"abcde"` as
short. -/
theorem entryMode_hardcoded_threshold :
    entryMode 5 0 0 0 = "invalid"
    ∧ entryMode 5 1 0 0 = "can-invalidate"
    ∧ checkLength 4 "abcde" = .ok () := by
  refine ⟨by decide, by decide, by rfl⟩

/-- C4 counterexample: `openAuction` runs `normalise` before
`checkLength` (index.js lines 305-306 and 316-317), so the
two-character name `"a!"` — shorter than the default minimum of 7 but
containing a disallowed character — fails with the normalisation error,
not with `TooShort`. -/
theorem openAuction_short_invalid_name :
    ("a!").length < 7
    ∧ (openAuction 7 (fun s => "0x" ++ s) strictNormalise (fun _ => "0xtx")
         (fun _ => "r") 0 "a!").result = .error "Illegal char"
    ∧ (openAuction 7 (fun s => "0x" ++ s) strictNormalise (fun _ => "0xtx")
         (fun _ => "r") 0 "a!").result ≠ .error tooShortMsg := by
  refine ⟨by decide, rfl, ?_⟩
  intro h
  simp [openAuction, strictNormalise, tooShortMsg] at h

/-- C4 amended: for every name shorter than the configured minimum,
`bidFactory` fails with `TooShort` (its length check runs first), and
`openAuction` fails with `TooShort` when normalisation succeeds on the
name and with the normalisation error otherwise (normalisation runs
first there); in every such case no ledger call is attempted — no
`shaBid` read by `bidFactory` and no `startAuctions` write by
`openAuction`, in either calling mode. -/
theorem short_name_rejected (minLength : Nat) (sha3 : String → String)
    (normalise : String → Except String String)
    (shaBidOf : String → String → Int → String → String)
    (startAuctionsTx : List String → String)
    (randoms : Fin 10 → String) (j : Fin 10)
    (name owner : String) (value : Int) (secret : String)
    (hshort : name.length < minLength) :
    (bidFactory minLength sha3 normalise shaBidOf name owner value secret).result
        = .error tooShortMsg
    ∧ (bidFactory minLength sha3 normalise shaBidOf name owner value secret).shaBidCalls = []
    ∧ (openAuction minLength sha3 normalise startAuctionsTx randoms j name).startAuctionsCalls = []
    ∧ (openAuctionAsync minLength sha3 normalise randoms j name).1 = []
    ∧ (openAuction minLength sha3 normalise startAuctionsTx randoms j name).result
        = (match normalise name with
           | .ok _ => Except.error tooShortMsg
           | .error e => Except.error e)
    ∧ (openAuctionAsync minLength sha3 normalise randoms j name).2
        = (match normalise name with
           | .ok _ => CbOutcome.cbErr tooShortMsg
           | .error e => CbOutcome.cbErr e) := by
  have hc : checkLength minLength name = .error tooShortMsg := by
    simp [checkLength, hshort]
  unfold bidFactory openAuction openAuctionAsync
  rw [hc]
  cases normalise name <;> simp [hc]

/-- Witness for `short_name_rejected` at the five-character name
`"short"` against the default minimum length 7 and a normaliser that
accepts everything. -/
theorem short_name_rejected_witness :
    ("short").length < 7
    ∧ ((bidFactory 7 (fun s => "0x" ++ s) (fun s => .ok s) (fun _ _ _ _ => "0xsha")
          "short" "0xowner" 5 "secret").result = .error tooShortMsg
       ∧ (bidFactory 7 (fun s => "0x" ++ s) (fun s => .ok s) (fun _ _ _ _ => "0xsha")
          "short" "0xowner" 5 "secret").shaBidCalls = []
       ∧ (openAuction 7 (fun s => "0x" ++ s) (fun s => .ok s) (fun _ => "0xtx")
          (fun _ => "r") 0 "short").startAuctionsCalls = []
       ∧ (openAuctionAsync 7 (fun s => "0x" ++ s) (fun s => .ok s)
          (fun _ => "r") 0 "short").1 = []
       ∧ (openAuction 7 (fun s => "0x" ++ s) (fun s => .ok s) (fun _ => "0xtx")
          (fun _ => "r") 0 "short").result = Except.error tooShortMsg
       ∧ (openAuctionAsync 7 (fun s => "0x" ++ s) (fun s => .ok s)
          (fun _ => "r") 0 "short").2 = CbOutcome.cbErr tooShortMsg) :=
  ⟨by decide, short_name_rejected 7 (fun s => "0x" ++ s) (fun s => .ok s)
     (fun _ _ _ _ => "0xsha") (fun _ => "0xtx") (fun _ => "r") 0
     "short" "0xowner" 5 "secret" (by decide)⟩

/-- The batch built by `openAuction`, viewed slot-by-slot: the target
hash sits at the drawn position `j` and a decoy hash at every other
position. -/
theorem openAuctionHashes_eq_ofFn (sha3 : String → String)
    (randoms : Fin 10 → String) (j : Fin 10) (hash : String) :
    openAuctionHashes sha3 randoms j hash
      = List.ofFn (fun i : Fin 10 => if i = j then hash else sha3 (randoms i)) := by
  unfold openAuctionHashes
  rw [← List.ofFn_eq_map]
  apply List.ext_getElem
  · simp
  · intro i h1 h2
    rw [List.getElem_set, List.getElem_ofFn, List.getElem_ofFn]
    by_cases hij : (j : Nat) = i
    · have hfin : (⟨i, by simpa using h2⟩ : Fin 10) = j := by
        apply Fin.ext
        simp [hij.symm]
      rw [if_pos hij, if_pos hfin]
    · have hfin : ¬ (⟨i, by simpa using h2⟩ : Fin 10) = j := by
        intro hcon
        apply hij
        have := congrArg Fin.val hcon
        simpa using this.symm
      rw [if_neg hij, if_neg hfin]

/-- C2: on a name that normalises successfully and meets the minimum
length, `openAuction` dispatches exactly one `startAuctions` batch; the
batch has length 10, the identifier of the normalised name occurs in it
exactly once, namely at the randomly drawn position `j`, the batch is
duplicate-free, and the nine decoy entries of two calls made with
collision-free random draws are pairwise different.  The random draws
and the drawn position are oracle inputs taken from
`Math.random()`; the hypotheses state that the decoy hashes collide
neither with each other, nor with the target identifier, nor across the
two calls. -/
theorem openAuction_decoy_batch (minLength : Nat) (sha3 : String → String)
    (normalise : String → Except String String)
    (startAuctionsTx : List String → String)
    (randoms randoms2 : Fin 10 → String) (j j2 : Fin 10)
    (name nn : String)
    (hn : normalise name = .ok nn)
    (hlen : ¬ name.length < minLength)
    (hinj : ∀ i1 i2 : Fin 10, sha3 (randoms i1) = sha3 (randoms i2) → i1 = i2)
    (hfresh : ∀ i : Fin 10, sha3 (randoms i) ≠ sha3 nn)
    (hcross : ∀ i1 i2 : Fin 10, sha3 (randoms i1) ≠ sha3 (randoms2 i2)) :
    (openAuction minLength sha3 normalise startAuctionsTx randoms j name).startAuctionsCalls
        = [openAuctionHashes sha3 randoms j (sha3 nn)]
    ∧ (openAuctionHashes sha3 randoms j (sha3 nn)).length = 10
    ∧ (openAuctionHashes sha3 randoms j (sha3 nn)).count (sha3 nn) = 1
    ∧ (openAuctionHashes sha3 randoms j (sha3 nn)).getD j "" = sha3 nn
    ∧ (openAuctionHashes sha3 randoms j (sha3 nn)).Nodup
    ∧ ((openAuctionHashes sha3 randoms j (sha3 nn)).filter (fun x => x != sha3 nn))
        ∩ ((openAuctionHashes sha3 randoms2 j2 (sha3 nn)).filter (fun x => x != sha3 nn))
        = [] := by
  have hofn := openAuctionHashes_eq_ofFn sha3 randoms j (sha3 nn)
  have hofn2 := openAuctionHashes_eq_ofFn sha3 randoms2 j2 (sha3 nn)
  have hlen10 : (openAuctionHashes sha3 randoms j (sha3 nn)).length = 10 := by
    rw [hofn, List.length_ofFn]
  have hnodup : (openAuctionHashes sha3 randoms j (sha3 nn)).Nodup := by
    rw [hofn, List.nodup_ofFn]
    intro i1 i2 h
    dsimp only at h
    by_cases h1 : i1 = j <;> by_cases h2 : i2 = j
    · rw [h1, h2]
    · rw [if_pos h1, if_neg h2] at h
      exact absurd h.symm (hfresh i2)
    · rw [if_neg h1, if_pos h2] at h
      exact absurd h (hfresh i1)
    · rw [if_neg h1, if_neg h2] at h
      exact hinj i1 i2 h
  have hmem : sha3 nn ∈ openAuctionHashes sha3 randoms j (sha3 nn) := by
    rw [hofn, List.mem_ofFn, Set.mem_range]
    exact ⟨j, by rw [if_pos rfl]⟩
  refine ⟨?_, hlen10, ?_, ?_, hnodup, ?_⟩
  · simp [openAuction, hn, checkLength, hlen]
  · exact List.count_eq_one_of_mem hnodup hmem
  · have hj : (j : Nat) < (openAuctionHashes sha3 randoms j (sha3 nn)).length := by
      rw [hlen10]
      exact j.isLt
    rw [List.getD_eq_getElem _ _ hj, List.getElem_of_eq hofn, List.getElem_ofFn]
    simp
  · rw [List.inter_eq_nil_iff_disjoint]
    intro x hx1 hx2
    rw [hofn, List.mem_filter, List.mem_ofFn, Set.mem_range] at hx1
    rw [hofn2, List.mem_filter, List.mem_ofFn, Set.mem_range] at hx2
    obtain ⟨⟨i1, hi1⟩, hb1⟩ := hx1
    obtain ⟨⟨i2, hi2⟩, hb2⟩ := hx2
    have hxne : x ≠ sha3 nn := by simpa using hb1
    by_cases h1 : i1 = j
    · rw [if_pos h1] at hi1
      exact hxne hi1.symm
    · rw [if_neg h1] at hi1
      by_cases h2 : i2 = j2
      · rw [if_pos h2] at hi2
        exact hxne hi2.symm
      · rw [if_neg h2] at hi2
        exact hcross i1 i2 (hi1.trans hi2.symm)

/-- Witness for `openAuction_decoy_batch`: concrete hashing and random
oracles, the nine-character name `"foobarbaz"`, the drawn slots 3 and 5
for two repeated calls. -/
theorem openAuction_decoy_batch_witness :
    ((fun s => Except.ok (ε := String) s) "foobarbaz" = .ok "foobarbaz")
    ∧ (¬ ("foobarbaz").length < 7)
    ∧ (∀ i1 i2 : Fin 10,
        "0x" ++ sampleRandoms i1 = "0x" ++ sampleRandoms i2 → i1 = i2)
    ∧ (∀ i : Fin 10, "0x" ++ sampleRandoms i ≠ "0x" ++ "foobarbaz")
    ∧ (∀ i1 i2 : Fin 10, "0x" ++ sampleRandoms i1 ≠ "0x" ++ sampleRandoms2 i2)
    ∧ ((openAuction 7 (fun s => "0x" ++ s) (fun s => .ok s) (fun _ => "0xtx")
          sampleRandoms 3 "foobarbaz").startAuctionsCalls
        = [openAuctionHashes (fun s => "0x" ++ s) sampleRandoms 3 ("0x" ++ "foobarbaz")]
       ∧ (openAuctionHashes (fun s => "0x" ++ s) sampleRandoms 3 ("0x" ++ "foobarbaz")).length = 10
       ∧ (openAuctionHashes (fun s => "0x" ++ s) sampleRandoms 3
            ("0x" ++ "foobarbaz")).count ("0x" ++ "foobarbaz") = 1
       ∧ (openAuctionHashes (fun s => "0x" ++ s) sampleRandoms 3
            ("0x" ++ "foobarbaz")).getD 3 "" = "0x" ++ "foobarbaz"
       ∧ (openAuctionHashes (fun s => "0x" ++ s) sampleRandoms 3 ("0x" ++ "foobarbaz")).Nodup
       ∧ ((openAuctionHashes (fun s => "0x" ++ s) sampleRandoms 3
            ("0x" ++ "foobarbaz")).filter (fun x => x != "0x" ++ "foobarbaz"))
          ∩ ((openAuctionHashes (fun s => "0x" ++ s) sampleRandoms2 5
            ("0x" ++ "foobarbaz")).filter (fun x => x != "0x" ++ "foobarbaz"))
          = []) :=
  ⟨rfl, by decide, by decide, by decide, by decide,
   openAuction_decoy_batch 7 (fun s => "0x" ++ s) (fun s => .ok s) (fun _ => "0xtx")
     sampleRandoms sampleRandoms2 3 5 "foobarbaz" "foobarbaz"
     rfl (by decide) (by decide) (by decide) (by decide)⟩

/-- C7 counterexample: `getEntry` invoked with a callback throws a
normalisation failure to the caller (its body has no try/catch) instead
of delivering it in the error slot of the callback. -/
theorem getEntryAsync_throws_normalisation_error :
    (getEntryAsync (fun s => "0x" ++ s) strictNormalise (fun _ => .ok sampleEntryData)
       (fun _ => 0) (fun _ => 0) (fun _ => "0xo") 0 "a!").2
      = .threw "Illegal char"
    ∧ (getEntryAsync (fun s => "0x" ++ s) strictNormalise (fun _ => .ok sampleEntryData)
       (fun _ => 0) (fun _ => 0) (fun _ => "0xo") 0 "a!").2
      ≠ .cbErr "Illegal char" := by
  exact ⟨rfl, by decide⟩

/-- C7 amended: operations invoked with a callback deliver their
failures in the callback's error slot for `openAuction` (normalisation
and length errors are caught and forwarded), `submitBid` (the deposit
check) and `isBidRevealed` (ledger read failures) — but `getEntry` runs
normalisation and the `entries` ledger read synchronously even in
callback mode, so their failures are thrown to the caller and its
callback is only ever invoked as `(null, entry)`. -/
theorem async_error_delivery (minLength : Nat) (sha3 : String → String)
    (normalise : String → Except String String)
    (entries : String → Except String EntryData)
    (sealedBidsE : String → Except String String)
    (getBalance : String → Int) (creationDateOf : String → Int)
    (ownerOf : String → String) (now : Int)
    (randoms : Fin 10 → String) (j : Fin 10)
    (name input e : String) (bid : Bid) (params : TxParams) (v : Int)
    (hn : normalise name = .error e)
    (hv : params.value = some v) (hlt : v < bid.value)
    (hsb : sealedBidsE bid.shaBid = .error e)
    (hin : input.take 2 ≠ "0x") (hni : normalise input = .error e) :
    (openAuctionAsync minLength sha3 normalise randoms j name).2 = .cbErr e
    ∧ (submitBidAsync bid params).2 = .cbErr noDepositMsg
    ∧ isBidRevealedAsync sealedBidsE bid = .cbErr e
    ∧ (getEntryAsync sha3 normalise entries getBalance creationDateOf ownerOf now input).2
        = .threw e := by
  refine ⟨?_, ?_, ?_, ?_⟩
  · simp [openAuctionAsync, hn]
  · simp [submitBidAsync, jsLtOpt, hv, hlt]
  · simp [isBidRevealedAsync, hsb]
  · simp [getEntryAsync, getEntry, hin, hni]

/-- Witness for `async_error_delivery` at the name `"a!"` rejected by
`strictNormalise`, an underfunded bid, and a failing sealed-bid read. -/
theorem async_error_delivery_witness :
    strictNormalise "a!" = .error "Illegal char"
    ∧ ({ value := some 3 } : TxParams).value = some 3
    ∧ (3 : Int) < sampleBid.value
    ∧ (fun (_ : String) => (Except.error "Illegal char" : Except String String)) sampleBid.shaBid
        = .error "Illegal char"
    ∧ ("a!").take 2 ≠ "0x"
    ∧ ((openAuctionAsync 7 (fun s => "0x" ++ s) strictNormalise (fun _ => "r") 0 "a!").2
        = .cbErr "Illegal char"
       ∧ (submitBidAsync sampleBid { value := some 3 }).2 = .cbErr noDepositMsg
       ∧ isBidRevealedAsync (fun _ => .error "Illegal char") sampleBid = .cbErr "Illegal char"
       ∧ (getEntryAsync (fun s => "0x" ++ s) strictNormalise (fun _ => .ok sampleEntryData)
            (fun _ => 0) (fun _ => 0) (fun _ => "0xo") 0 "a!").2 = .threw "Illegal char") :=
  ⟨rfl, rfl, by decide, rfl, by decide,
   async_error_delivery 7 (fun s => "0x" ++ s) strictNormalise (fun _ => .ok sampleEntryData)
     (fun _ => .error "Illegal char") (fun _ => 0) (fun _ => 0) (fun _ => "0xo") 0
     (fun _ => "r") 0 "a!" "a!" "Illegal char" sampleBid { value := some 3 } 3
     rfl rfl (by decide) rfl (by decide) rfl⟩

end Registrar
